import Mathlib

/-!
# Verification of the pos-backend order-lifecycle core

Shallow embedding of the TypeScript sources of `rupam2232/pos-backend`
(order controller, restaurant controller, restaurant/order services and the
mongoose data model) together with proofs of the specification claims about
order creation, pricing, financial totals, the order status machine and
subscription quotas.

Conventions of the embedding:
* MongoDB ObjectIds are `Nat`; money and JS numbers are `Rat`;
  dates are `Int` (milliseconds since epoch); enumerated strings
  (`status`, `paymentMethod`, roles) stay `String` as in the JS source.
* A controller is a pure function `DB → Request → DB × Except ApiError α`:
  the first component is the database visible after the request, the second
  the HTTP outcome.  `createOrder` and `updateOrder` run inside a mongoose
  transaction: their body builds a session state which is committed on
  success and discarded (`abortTransaction`) on any thrown `ApiError`.
* JavaScript truthiness on optional numbers/strings (`x || y`) is modelled
  explicitly: `0`, `""` and `undefined` are falsy.
-/

/-- Controller outcomes are compared in witnesses, so `Except` needs
decidable equality. -/
instance {ε α : Type} [DecidableEq ε] [DecidableEq α] : DecidableEq (Except ε α) := fun x y =>
  match x, y with
  | .ok a, .ok b =>
    if h : a = b then .isTrue (by rw [h]) else .isFalse (by simp [h])
  | .error a, .error b =>
    if h : a = b then .isTrue (by rw [h]) else .isFalse (by simp [h])
  | .ok _, .error _ => .isFalse (by simp)
  | .error _, .ok _ => .isFalse (by simp)

/-- An `ApiError(statusCode, message)` as thrown by the controllers. -/
structure ApiError where
  statusCode : Nat
  message : String
deriving Repr, DecidableEq, Inhabited

/-- JS `x || y` for `x : number | undefined` (`0` and `undefined` are falsy). -/
def jsOr (x : Option Rat) (y : Rat) : Rat :=
  match x with
  | some v => if v = 0 then y else v
  | none => y

/-- JS truthiness of `s : string | undefined`; the empty string is falsy.
Returns the string itself when truthy (`s || null` keeps `null` otherwise). -/
def strTruthy (s : Option String) : Option String :=
  match s with
  | some v => if v = "" then none else some v
  | none => none

/-- A food-item variant (subdocument of `foodItem.model.ts`). -/
structure Variant where
  variantName : String
  price : Rat
  discountedPrice : Option Rat
  isAvailable : Bool
deriving Repr, DecidableEq, Inhabited

/-- A `FoodItem` document (fields used by the order flow). -/
structure FoodItemDoc where
  _id : Nat
  restaurantId : Nat
  price : Rat
  discountedPrice : Option Rat
  hasVariants : Bool
  variants : List Variant
  isAvailable : Bool
deriving Repr, DecidableEq, Inhabited

/-- A `Restaurant` document (`restaurant.models.ts`, fields used here). -/
structure Restaurant where
  _id : Nat
  restaurantName : String
  slug : String
  ownerId : Nat
  staffIds : List Nat
  isCurrentlyOpen : Bool
  taxRate : Rat
  isTaxIncludedInPrice : Bool
deriving Repr, DecidableEq, Inhabited

/-- A `Table` document (`table.model.ts`). -/
structure TableDoc where
  _id : Nat
  restaurantId : Nat
  tableName : String
  qrSlug : String
  isOccupied : Bool
  currentOrderId : Option Nat
deriving Repr, DecidableEq, Inhabited

/-- An embedded order line (`foodItemSchema` inside `order.model.ts`):
the snapshot `(foodItemId, variantName, quantity, price)` persisted on the
order.  `quantity` is a JS number, hence `Rat`. -/
structure OrderLine where
  foodItemId : Nat
  variantName : Option String
  quantity : Rat
  price : Rat
deriving Repr, DecidableEq, Inhabited

/-- An `Order` document (`order.model.ts`, fields used by the order flow).
`status` ranges over the schema enum
`pending, preparing, ready, served, completed, cancelled`. -/
structure OrderDoc where
  _id : Nat
  restaurantId : Nat
  tableId : Nat
  foodItems : List OrderLine
  status : String
  isPaid : Bool
  kitchenStaffId : Option Nat
  paymentAttempts : List Nat
  notes : Option String
deriving Repr, DecidableEq, Inhabited

/-- A `Payment` document (`payment.model.ts`, fields used by the order flow). -/
structure PaymentDoc where
  _id : Nat
  orderId : Nat
  method : String
  status : String
  subtotal : Rat
  totalAmount : Rat
  discountAmount : Rat
  taxAmount : Rat
  tipAmount : Rat
  paymentGateway : Option String
  gatewayOrderId : Option String
deriving Repr, DecidableEq, Inhabited

/-- A `Subscription` document (`subscription.model.ts`). -/
structure SubscriptionDoc where
  userId : Nat
  plan : Option String
  isTrial : Bool
  trialExpiresAt : Option Int
  subscriptionEndDate : Option Int
  isSubscriptionActive : Bool
deriving Repr, DecidableEq, Inhabited

/-- The document database: one collection per model. -/
structure DB where
  restaurants : List Restaurant
  foodItems : List FoodItemDoc
  tables : List TableDoc
  orders : List OrderDoc
  payments : List PaymentDoc
  subscriptions : List SubscriptionDoc
deriving Repr, DecidableEq, Inhabited

/-- The authenticated principal (`req.user`), as set by the auth middleware. -/
structure AuthUser where
  _id : Nat
  role : String
deriving Repr, DecidableEq, Inhabited

/-- `Restaurant.findOne({slug})`. -/
def findRestaurantBySlug (db : DB) (slug : String) : Option Restaurant :=
  db.restaurants.find? (fun r => r.slug == slug)

/-- `FoodItem.findOne({_id, restaurantId, isAvailable: true})`. -/
def findAvailableFoodItem (db : DB) (fid rid : Nat) : Option FoodItemDoc :=
  db.foodItems.find? (fun f => f._id == fid && f.restaurantId == rid && f.isAvailable)

/-- `Table.findOne({qrSlug, restaurantId})`. -/
def findTableByQr (db : DB) (qr : String) (rid : Nat) : Option TableDoc :=
  db.tables.find? (fun t => t.qrSlug == qr && t.restaurantId == rid)

/-- `Table.findOne({_id})`. -/
def findTableById (db : DB) (tid : Nat) : Option TableDoc :=
  db.tables.find? (fun t => t._id == tid)

/-- `Order.findOne({_id, restaurantId})`. -/
def findOrderById (db : DB) (oid rid : Nat) : Option OrderDoc :=
  db.orders.find? (fun o => o._id == oid && o.restaurantId == rid)

/-- `Subscription.findOne({userId})`. -/
def findSubscriptionByUser (subs : List SubscriptionDoc) (uid : Nat) : Option SubscriptionDoc :=
  subs.find? (fun s => s.userId == uid)

/-- `doc.save()` on a fetched document: replace the stored document with the
same `_id` (the first match, as `_id` lookups return a single document). -/
def replaceTableById : List TableDoc → TableDoc → List TableDoc
  | [], _ => []
  | t :: ts, t' => if t._id == t'._id then t' :: ts else t :: replaceTableById ts t'

/-- `order.save()`: replace the stored order with the same `_id`. -/
def replaceOrderById : List OrderDoc → OrderDoc → List OrderDoc
  | [], _ => []
  | o :: os, o' => if o._id == o'._id then o' :: os else o :: replaceOrderById os o'

/-- A fresh ObjectId for an inserted document. -/
def freshId (ids : List Nat) : Nat := ids.foldr max 0 + 1

/-- A requested cart line from `req.body.foodItems`.  Every field may be
absent; `price` is whatever the client chose to send (the controllers never
read it). -/
structure CartLineReq where
  _id : Option Nat
  variantName : Option String
  quantity : Option Rat
  price : Option Rat
deriving Repr, DecidableEq, Inhabited

/-- One iteration of the cart-validation loop shared verbatim by
`createOrder` (order.controller.ts:48-107) and `updateOrder`
(order.controller.ts:884-944): presence/type check of `_id` and `quantity`
(JS `!foodItem.quantity` also rejects `0`), catalog lookup, variant
validation, and the price snapshot
`variant.discountedPrice || variant.price` for variant lines and the plain
`isFoodItemValid.price` for base lines. -/
def resolveFoodItemLine (db : DB) (restaurantId : Nat) (line : CartLineReq) :
    Except ApiError OrderLine :=
  match line._id, line.quantity with
  | some fid, some q =>
    if q = 0 then
      .error ⟨400, "Each food item must have an _id and quantity"⟩
    else
      match findAvailableFoodItem db fid restaurantId with
      | none => .error ⟨400, "Food item is not available"⟩
      | some fi =>
        match strTruthy line.variantName with
        | some vn =>
          if fi.hasVariants = false then
            .error ⟨400, "Food item does not have variants"⟩
          else if !(fi.variants.any (fun v => v.variantName == vn)) then
            .error ⟨400, "Variant for food item is not valid"⟩
          else
            match fi.variants.find? (fun v => v.variantName == vn) with
            | none => .error ⟨400, "Variant for food item is not available"⟩
            | some v =>
              if v.isAvailable = false then
                .error ⟨400, "Variant for food item is not available"⟩
              else
                .ok { foodItemId := fi._id, variantName := some vn, quantity := q,
                      price := jsOr v.discountedPrice v.price }
        | none =>
          .ok { foodItemId := fi._id, variantName := none, quantity := q,
                price := fi.price }
  | _, _ => .error ⟨400, "Each food item must have an _id and quantity"⟩

/-- The whole `for (const foodItem of req.body.foodItems)` validation loop:
resolve every requested line in order, aborting at the first error. -/
def resolveCart (db : DB) (restaurantId : Nat) :
    List CartLineReq → Except ApiError (List OrderLine)
  | [] => .ok []
  | line :: rest =>
    match resolveFoodItemLine db restaurantId line with
    | .error e => .error e
    | .ok l =>
      match resolveCart db restaurantId rest with
      | .error e => .error e
      | .ok ls => .ok (l :: ls)

/-- `foodItems.reduce((acc, item) => acc + item.price * item.quantity, 0)`. -/
def lineSubtotal (lines : List OrderLine) : Rat :=
  lines.foldl (fun acc l => acc + l.price * l.quantity) 0

/-- `d && d < new Date()` on an optional date: has the date passed `now`? -/
def datePassed (d : Option Int) (now : Int) : Bool :=
  match d with
  | some x => decide (x < now)
  | none => false

/-- `canRestaurantRecieveOrders` (optionalAuth.middleware.ts:71-126, the
appended document of that file, which is what `createOrder` imports).  It
loads the restaurant owner's subscription with `Subscription.findOne` and
runs four denial checks in order: no subscription or
`isSubscriptionActive === false`; a set `subscriptionEndDate` in the past;
a trial whose `trialExpiresAt` is in the past; and neither trial flag nor
any date set at all.  On every denial it first force-closes the
restaurant (`restaurant.isCurrentlyOpen = false; restaurant.save(...)`),
and on the last three it also persists `isSubscriptionActive = false` on
the subscription before throwing 403.  The subscription document is
fetched inside the service without the caller's mongoose session, so its
save is NOT transactional; the restaurant document handed in by
`createOrder` was fetched with `.session(session)`, so the force-close save
joins the caller's transaction.  Returns the (directly written)
subscriptions collection, the restaurant document as saved into the
session, and the optional denial error. -/
def canRestaurantRecieveOrders (now : Int) (restaurant : Restaurant)
    (subs : List SubscriptionDoc) :
    List SubscriptionDoc × Restaurant × Option ApiError :=
  let deactivated :=
    subs.map (fun s => if s.userId == restaurant.ownerId
                       then { s with isSubscriptionActive := false } else s)
  match findSubscriptionByUser subs restaurant.ownerId with
  | none =>
    (subs, { restaurant with isCurrentlyOpen := false },
     some ⟨403, "This restaurant does not have an active subscription. we cannot process your order at this time. Please contact the restaurant owner for more information"⟩)
  | some s =>
    if s.isSubscriptionActive = false then
      (subs, { restaurant with isCurrentlyOpen := false },
       some ⟨403, "This restaurant does not have an active subscription. we cannot process your order at this time. Please contact the restaurant owner for more information"⟩)
    else if datePassed s.subscriptionEndDate now then
      (deactivated, { restaurant with isCurrentlyOpen := false },
       some ⟨403, "This restaurant's subscription has expired. Please contact the restaurant owner to renew the subscription"⟩)
    else if s.isTrial && datePassed s.trialExpiresAt now then
      (deactivated, { restaurant with isCurrentlyOpen := false },
       some ⟨403, "This restaurant's trial period has expired. Please contact the restaurant owner to subscribe"⟩)
    else if !s.isTrial && s.trialExpiresAt == none && s.subscriptionEndDate == none then
      (deactivated, { restaurant with isCurrentlyOpen := false },
       some ⟨403, "This restaurant's subscription is not active. Please contact the restaurant owner to subscribe"⟩)
    else
      (subs, restaurant, none)

/-- The request shape of `POST /:restaurantSlug/:tableQrSlug` (createOrder). -/
structure CreateOrderReq where
  restaurantSlug : String
  tableQrSlug : String
  foodItems : List CartLineReq
  paymentMethod : String
  notes : Option String
deriving Repr, DecidableEq, Inhabited

/-- The read/validation phase of `createOrder` (order.controller.ts:18-136),
in source order: params and body-shape checks, restaurant lookup and
open-check, the cart-validation loop, table lookup and occupancy check.
No database write happens in this phase. -/
def createOrderValidate (db : DB) (req : CreateOrderReq) :
    Except ApiError (Restaurant × List OrderLine × TableDoc) :=
  if req.restaurantSlug = "" || req.tableQrSlug = "" then
    .error ⟨400, "Restaurant slug and table QR slug are required"⟩
  else if req.foodItems.isEmpty
      || !(["online", "cash"].contains req.paymentMethod) then
    .error ⟨400, "All fields are required: foodItems, paymentMethod"⟩
  else
    match findRestaurantBySlug db req.restaurantSlug with
    | none => .error ⟨404, "Restaurant not found"⟩
    | some restaurant =>
      if restaurant.isCurrentlyOpen = false then
        .error ⟨400, "Restaurant is currently closed"⟩
      else
        match resolveCart db restaurant._id req.foodItems with
        | .error e => .error e
        | .ok lines =>
          match findTableByQr db req.tableQrSlug restaurant._id with
          | none => .error ⟨404, "Table not found please rescan the QR code"⟩
          | some table =>
            if table.isOccupied then
              .error ⟨400, "This table is not available for new orders, it is currently occupied"⟩
            else
              .ok (restaurant, lines, table)

/-- The body of `createOrder`'s mongoose transaction
(order.controller.ts:14-224).  The external payment gateway
(`razorpay.orders.create`) is the function `gw`, mapping the amount in
paise to the optional `id` of its response.  Returns the non-transactional
view of the subscriptions collection (written through directly by
`canRestaurantRecieveOrders`) alongside either a thrown `ApiError` or the
session state to commit together with the created order and payment. -/
def createOrderTx (db : DB) (req : CreateOrderReq) (gw : Rat → Option String)
    (now : Int) :
    List SubscriptionDoc × Except ApiError (DB × OrderDoc × PaymentDoc) :=
  match createOrderValidate db req with
  | .error e => (db.subscriptions, .error e)
  | .ok (restaurant, lines, table) =>
    match canRestaurantRecieveOrders now restaurant db.subscriptions with
    | (subs1, _, some e) => (subs1, .error e)
    | (subs1, _, none) =>
      let subtotal := lineSubtotal lines
      let orderId := freshId (db.orders.map (fun o => o._id))
      let order0 : OrderDoc :=
        { _id := orderId, restaurantId := restaurant._id, tableId := table._id,
          foodItems := lines, status := "pending", isPaid := false,
          kitchenStaffId := none, paymentAttempts := [], notes := req.notes }
      let db1 := { db with orders := db.orders ++ [order0] }
      let paymentId := freshId (db.payments.map (fun p => p._id))
      let payment0 : PaymentDoc :=
        { _id := paymentId, orderId := orderId, method := req.paymentMethod,
          status := "pending", subtotal := subtotal,
          totalAmount := if restaurant.isTaxIncludedInPrice then subtotal
                         else subtotal + subtotal * restaurant.taxRate / 100,
          discountAmount := 0,
          taxAmount := if restaurant.isTaxIncludedInPrice then 0
                       else subtotal * restaurant.taxRate / 100,
          tipAmount := 0, paymentGateway := none, gatewayOrderId := none }
      let table1 := { table with isOccupied := true, currentOrderId := some orderId }
      let db2 := { db1 with tables := replaceTableById db1.tables table1 }
      if req.paymentMethod = "online" then
        match strTruthy (gw (payment0.totalAmount * 100)) with
        | none => (subs1, .error ⟨500, "Failed to create payment order"⟩)
        | some gid =>
          let payment1 := { payment0 with
            paymentGateway := some "Razorpay",
            gatewayOrderId := some gid }
          let order1 := { order0 with paymentAttempts := [paymentId] }
          let db3 := { db2 with payments := db2.payments ++ [payment1] }
          let db4 := { db3 with orders := replaceOrderById db3.orders order1 }
          (subs1, .ok (db4, order1, payment1))
      else
        let order1 := { order0 with paymentAttempts := [paymentId] }
        let db3 := { db2 with payments := db2.payments ++ [payment0] }
        let db4 := { db3 with orders := replaceOrderById db3.orders order1 }
        (subs1, .ok (db4, order1, payment0))

/-- `createOrder` (order.controller.ts:14-224): run the transaction body;
`commitTransaction` publishes the session state on success,
`abortTransaction` discards it on error.  The subscriptions collection is
outside the transaction, so its writes survive either way. -/
def createOrder (db : DB) (req : CreateOrderReq) (gw : Rat → Option String)
    (now : Int) : DB × Except ApiError (OrderDoc × PaymentDoc) :=
  match createOrderTx db req gw now with
  | (subs, .ok (db', o, p)) => ({ db' with subscriptions := subs }, .ok (o, p))
  | (subs, .error e) => ({ db with subscriptions := subs }, .error e)

/-- The six legal order statuses, in the order of the controller's check
(order.controller.ts:709-720). -/
def validStatuses : List String :=
  ["pending", "preparing", "ready", "served", "completed", "cancelled"]

/-- The owner/staff authorization block duplicated verbatim in
`updateOrderStatus` (order.controller.ts:730-755) and `updateOrder`
(order.controller.ts:836-861): an owner must own the restaurant, a staff
member must appear in `restaurant.staffIds`, every other role is refused. -/
def staffAuthCheck (restaurant : Restaurant) (user : AuthUser) : Option ApiError :=
  if user.role = "owner" then
    if restaurant.ownerId ≠ user._id then
      some ⟨403, "You are not authorized to update orders for this restaurant"⟩
    else none
  else if user.role = "staff" then
    if restaurant.staffIds.isEmpty
        || !(restaurant.staffIds.any (fun s => s == user._id)) then
      some ⟨403, "You are not authorized to update orders for this restaurant"⟩
    else none
  else some ⟨403, "You are not authorized to update orders for this restaurant"⟩

/-- The table release on a terminal transition
(order.controller.ts:798-806): `Table.findOne({_id: order.tableId})` and,
when found, `isOccupied = false`, `currentOrderId = undefined`, saved with
`validateBeforeSave: false`; no other field of the document is touched. -/
def releaseTableById (tables : List TableDoc) (tid : Nat) : List TableDoc :=
  match tables.find? (fun t => t._id == tid) with
  | some t => replaceTableById tables { t with isOccupied := false, currentOrderId := none }
  | none => tables

/-- The request of `PATCH /:restaurantSlug/:orderId/status`.  `status` is
the raw `req.body.status` (`none` models an absent field). -/
structure UpdateStatusReq where
  restaurantSlug : String
  orderId : Nat
  status : Option String
deriving Repr, DecidableEq, Inhabited

/-- The order schema's conditional-immutability hook on `status` (and on
`foodItems`, `paymentAttempts`, `isPaid`, `couponUsed`):
`immutable(doc) { return doc.status === "completed" || doc.status ===
"cancelled" }` (order.model.ts:105-107, 122-124).  Mongoose evaluates the
hook against the live document at assignment time and, when it returns
true, silently drops the write. -/
def orderStatusImmutable (o : OrderDoc) : Bool :=
  o.status == "completed" || o.status == "cancelled"

/-- The order schema's immutability hook on `kitchenStaffId`
(order.model.ts:145-153): immutable whenever the document's current
status is `preparing`, `ready`, `served`, `completed` or `cancelled` —
i.e. the field is writable only while the document reads `pending`. -/
def orderKitchenStaffImmutable (o : OrderDoc) : Bool :=
  o.status == "preparing" || o.status == "ready" || o.status == "served"
    || o.status == "completed" || o.status == "cancelled"

/-- `order.status = s` under the schema hook: dropped iff the document's
current status is terminal. -/
def setOrderStatus (o : OrderDoc) (s : String) : OrderDoc :=
  if orderStatusImmutable o then o else { o with status := s }

/-- `order.isPaid = b` under the schema hook (same terminal-status
condition, evaluated against the document as it stands when the
assignment runs). -/
def setOrderIsPaid (o : OrderDoc) (b : Bool) : OrderDoc :=
  if orderStatusImmutable o then o else { o with isPaid := b }

/-- `order.kitchenStaffId = k` under the schema hook: effective only while
the document's current status is `pending`. -/
def setOrderKitchenStaffId (o : OrderDoc) (k : Option Nat) : OrderDoc :=
  if orderKitchenStaffImmutable o then o else { o with kitchenStaffId := k }

/-- The in-place mutation block of `updateOrderStatus`
(order.controller.ts:791-796) in source order: `order.status = status`
first, then `if (status === "completed") order.isPaid = true`, then
`order.kitchenStaffId = user._id`.  Because the status assignment lands
first, the schema hooks evaluate the LATER assignments against the NEW
status: the `isPaid` force is always dropped (when `s = "completed"` the
document already reads completed), and the kitchen-staff stamp survives
only when the requested status is `"pending"`. -/
def applyStatusMutation (o : OrderDoc) (s : String) (user : AuthUser) : OrderDoc :=
  let o1 := setOrderStatus o s
  let o2 := if s = "completed" then setOrderIsPaid o1 true else o1
  setOrderKitchenStaffId o2 (some user._id)

/-- `updateOrderStatus` (order.controller.ts:698-808), check for check in
source order: param/body validation, status-enum check, restaurant lookup,
owner/staff authorization, order lookup, the already-in-this-status check,
the kitchen-staff claim check, the terminal-state check; then the in-place
mutation block `applyStatusMutation` (whose `isPaid` and `kitchenStaffId`
assignments are filtered by the schema's conditional-immutability hooks,
see above), `order.save()`, and — when the new status is terminal —
the reciprocal table release `isOccupied = false, currentOrderId =
undefined` saved without re-validation.  This endpoint opens no
transaction in the source. -/
def updateOrderStatus (db : DB) (req : UpdateStatusReq) (user : AuthUser) :
    DB × Except ApiError OrderDoc :=
  if req.restaurantSlug = "" then
    (db, .error ⟨400, "Order ID and restaurant slug are required"⟩)
  else
    match strTruthy req.status with
    | none => (db, .error ⟨400, "Status is required"⟩)
    | some s =>
      if !(validStatuses.contains s) then
        (db, .error ⟨400, "Valid status is required"⟩)
      else
        match findRestaurantBySlug db req.restaurantSlug with
        | none => (db, .error ⟨404, "Restaurant not found"⟩)
        | some restaurant =>
          match staffAuthCheck restaurant user with
          | some e => (db, .error e)
          | none =>
            match findOrderById db req.orderId restaurant._id with
            | none => (db, .error ⟨404, "Order not found"⟩)
            | some order =>
              if order.status = s then
                (db, .error ⟨400, "Order status is already set to the requested status"⟩)
              else if (match order.kitchenStaffId with
                       | some k => k != user._id
                       | none => false) then
                (db, .error ⟨403, "Only the kitchen staff who updated the order can change its status"⟩)
              else if ["completed", "cancelled"].contains order.status then
                (db, .error ⟨400, "Cannot update status of completed or cancelled orders"⟩)
              else
                let order1 := applyStatusMutation order s user
                let db1 := { db with orders := replaceOrderById db.orders order1 }
                if s = "completed" || s = "cancelled" then
                  ({ db1 with tables := releaseTableById db1.tables order.tableId },
                   .ok order1)
                else (db1, .ok order1)

/-- The request of `PATCH /:restaurantSlug/:orderId` (updateOrder). -/
structure UpdateOrderReq where
  restaurantSlug : String
  orderId : Nat
  foodItems : List CartLineReq
  notes : Option String
deriving Repr, DecidableEq, Inhabited

/-- The statuses from which `updateOrder` refuses to amend the cart
(order.controller.ts:874-879). -/
def updateLockedStatuses : List String := ["ready", "served", "completed", "cancelled"]

/-- The body of `updateOrder`'s transaction (order.controller.ts:810-986):
validation, authorization, order lookup, the status gate, the same
cart-resolution loop as `createOrder`, then `order.foodItems`/`notes`
update and `Payment.updateMany({orderId, status: "pending"}, …)`
(order.controller.ts:957-974).  The update document names `subtotal`,
`totalAmount`, `taxAmount`, `discountAmount` and `tipAmount`, but the
payment schema marks `subtotal` and `totalAmount` `immutable: true`
(payment.model.ts:56-65) and mongoose strips unconditionally-immutable
paths from query updates, so those two writes are silently dropped and
the stored subtotal/totalAmount keep their original values; the other
three fields are only conditionally immutable (a function of the
document's paid/failed status, which query updates cannot evaluate
against a document), so they ARE applied — the filter restricts the
update to `status: "pending"` payments anyway. -/
def updateOrderTx (db : DB) (req : UpdateOrderReq) (user : AuthUser) :
    Except ApiError (DB × OrderDoc) :=
  if req.restaurantSlug = "" then
    .error ⟨400, "Order ID and restaurant slug are required"⟩
  else if req.foodItems.isEmpty then
    .error ⟨400, "Food items are required"⟩
  else
    match findRestaurantBySlug db req.restaurantSlug with
    | none => .error ⟨404, "Restaurant not found"⟩
    | some restaurant =>
      match staffAuthCheck restaurant user with
      | some e => .error e
      | none =>
        match findOrderById db req.orderId restaurant._id with
        | none => .error ⟨404, "Order not found"⟩
        | some order =>
          if updateLockedStatuses.contains order.status then
            .error ⟨400, "Cannot update order that is already completed or cancelled"⟩
          else
            match resolveCart db restaurant._id req.foodItems with
            | .error e => .error e
            | .ok lines =>
              let order1 := { order with
                foodItems := lines,
                notes := (match strTruthy req.notes with
                          | some n => some n
                          | none => order.notes) }
              let db1 := { db with orders := replaceOrderById db.orders order1 }
              let subtotal := lineSubtotal lines
              let db2 := { db1 with
                payments := db1.payments.map (fun p =>
                  if p.orderId == order._id && p.status == "pending" then
                    { p with
                      taxAmount := if restaurant.isTaxIncludedInPrice then 0
                                   else subtotal * restaurant.taxRate / 100,
                      discountAmount := 0,
                      tipAmount := 0 }
                  else p) }
              .ok (db2, order1)

/-- `updateOrder` (order.controller.ts:810-986): commit on success, abort
(discarding every session write) on error. -/
def updateOrder (db : DB) (req : UpdateOrderReq) (user : AuthUser) :
    DB × Except ApiError OrderDoc :=
  match updateOrderTx db req user with
  | .ok (db', o) => (db', .ok o)
  | .error e => (db, .error e)

/-- `let maxRestaurants = 1; if (plan === "medium") 2; if (plan === "pro") 4`
(restaurant.service.ts:11-13). -/
def planMaxRestaurants (plan : Option String) : Nat :=
  if plan == some "medium" then 2
  else if plan == some "pro" then 4
  else 1

/-- `Restaurant.countDocuments({ownerId})`. -/
def countOwnerRestaurants (db : DB) (ownerId : Nat) : Nat :=
  (db.restaurants.filter (fun r => r.ownerId == ownerId)).length

/-- The operative one-argument `canCreateRestaurant`
(restaurant.service.ts:5-18, the revision the controller calls as
`canCreateRestaurant(req.user!)`): it fetches the caller's subscription
itself (`Subscription.findOne({userId})` — mongoose casts the passed user
document to its `_id`), throws 403 `"No active subscription found"` when
none exists or `isSubscriptionActive` is falsy, then counts the owner's
restaurants and throws the 403 quota error (1 / 2 for medium / 4 for pro,
message interpolated with the cap) once the count reaches the cap. -/
def canCreateRestaurant (db : DB) (userId : Nat) : Option ApiError :=
  match findSubscriptionByUser db.subscriptions userId with
  | none => some ⟨403, "No active subscription found"⟩
  | some subscription =>
    if subscription.isSubscriptionActive = false then
      some ⟨403, "No active subscription found"⟩
    else
      let maxRestaurants := planMaxRestaurants subscription.plan
      if countOwnerRestaurants db userId ≥ maxRestaurants then
        some ⟨403, "Your plan allows only " ++ Nat.repr maxRestaurants ++ " restaurants"⟩
      else none

/-- The request of `POST /restaurant` (createRestaurant), fields the quota
logic depends on. -/
structure CreateRestaurantReq where
  restaurantName : String
  slug : String
deriving Repr, DecidableEq, Inhabited

/-- `createRestaurant` (restaurant.controller.ts:9-55): field validation,
owner-role check, the `canCreateRestaurant(req.user!)` subscription and
quota gate, then `Restaurant.create`.  `create` runs the schema's slug
validator `str.length >= 3 && str.length <= 8` ("Short name (slug) must
be 3-8 characters", the restaurant schema) and the unique-slug index
rejects a duplicate slug; both failures escape the controller as thrown
errors that Express's default handler reports as 500 (the controller's
own `if (!restaurant)` guard uses "Failed to create restaurant.").  New
restaurants take the schema defaults `isCurrentlyOpen = false`,
`staffIds = []`, `taxRate = 0`, `isTaxIncludedInPrice = false`. -/
def createRestaurant (db : DB) (user : AuthUser)
    (req : CreateRestaurantReq) : DB × Except ApiError Restaurant :=
  if req.restaurantName = "" || req.slug = "" then
    (db, .error ⟨400, "Restaurant name and slug are required."⟩)
  else if user.role ≠ "owner" then
    (db, .error ⟨403, "Only owners can create restaurants."⟩)
  else
    match canCreateRestaurant db user._id with
    | some e => (db, .error e)
    | none =>
      if !(decide (3 ≤ req.slug.length) && decide (req.slug.length ≤ 8)) then
        (db, .error ⟨500, "Short name (slug) must be 3-8 characters"⟩)
      else if db.restaurants.any (fun r => r.slug == req.slug) then
        (db, .error ⟨500, "Failed to create restaurant."⟩)
      else
        let r : Restaurant :=
          { _id := freshId (db.restaurants.map (fun x => x._id)),
            restaurantName := req.restaurantName, slug := req.slug,
            ownerId := user._id, staffIds := [], isCurrentlyOpen := false,
            taxRate := 0, isTaxIncludedInPrice := false }
        ({ db with restaurants := db.restaurants ++ [r] }, .ok r)

/-- `Except.isOk` specialised to controller outcomes. -/
def isOkE {α : Type} : Except ApiError α → Bool
  | .ok _ => true
  | .error _ => false

/-- The concrete restaurant `R` of the spec's scenario: `taxRate = 5`,
`isTaxIncludedInPrice = false`, owner `10`, staff `20` and `21`, open. -/
def demoRestaurant : Restaurant :=
  { _id := 1, restaurantName := "R", slug := "resto", ownerId := 10,
    staffIds := [20, 21], isCurrentlyOpen := true, taxRate := 5,
    isTaxIncludedInPrice := false }

/-- `Pizza`'s `Large` variant: price 250, discounted price 220, available. -/
def largeVariant : Variant :=
  { variantName := "Large", price := 250, discountedPrice := some 220,
    isAvailable := true }

/-- FoodItem `Pizza`: base price 200, one variant `Large`. -/
def pizzaItem : FoodItemDoc :=
  { _id := 2, restaurantId := 1, price := 200, discountedPrice := some 180,
    hasVariants := true, variants := [largeVariant], isAvailable := true }

/-- A free table of restaurant `R`. -/
def demoTable : TableDoc :=
  { _id := 3, restaurantId := 1, tableName := "T1", qrSlug := "qr1",
    isOccupied := false, currentOrderId := none }

/-- The owner's active starter subscription (paid through time 100). -/
def demoSub : SubscriptionDoc :=
  { userId := 10, plan := some "starter", isTrial := false,
    trialExpiresAt := none, subscriptionEndDate := some 100,
    isSubscriptionActive := true }

/-- The database of the spec's concrete order-creation scenario. -/
def demoDB : DB :=
  { restaurants := [demoRestaurant], foodItems := [pizzaItem],
    tables := [demoTable], orders := [], payments := [],
    subscriptions := [demoSub] }

/-- The cart `[{foodItemId: Pizza, variantName: "Large", quantity: 2}]`. -/
def pizzaCart : CartLineReq :=
  { _id := some 2, variantName := some "Large", quantity := some 2, price := none }

/-- The cash order-creation request of the spec's scenario. -/
def pizzaReq : CreateOrderReq :=
  { restaurantSlug := "resto", tableQrSlug := "qr1", foodItems := [pizzaCart],
    paymentMethod := "cash", notes := none }

/-- A payment gateway that always answers with an order id. -/
def okGateway : Rat → Option String := fun _ => some "rzp_order_1"


/-- `demoDB` with the owner's subscription lapsed: still flagged active but
`subscriptionEndDate` in the past relative to request time `0`. -/
def expiredSub : SubscriptionDoc :=
  { userId := 10, plan := some "starter", isTrial := false,
    trialExpiresAt := none, subscriptionEndDate := some (-5),
    isSubscriptionActive := true }

/-- `demoDB` whose owner subscription has silently expired. -/
def expiredDB : DB := { demoDB with subscriptions := [expiredSub] }

/-- A gateway that returns no order id (the `!paymentResponse.id` case). -/
def downGateway : Rat → Option String := fun _ => none

/-- `pizzaReq` paid online. -/
def pizzaOnlineReq : CreateOrderReq := { pizzaReq with paymentMethod := "online" }

/-- `Pizza` with the `Large` variant discounted to `0`. -/
def zeroDiscountItem : FoodItemDoc :=
  { pizzaItem with variants := [{ largeVariant with discountedPrice := some 0 }] }

/-- The demo database with the zero-discount catalog. -/
def zeroDiscountDB : DB := { demoDB with foodItems := [zeroDiscountItem] }

/-- A cart line with a negative quantity (passes `!quantity` in JS). -/
def negativeQtyCart : CartLineReq :=
  { _id := some 2, variantName := none, quantity := some (-2), price := none }

/-- The cash request carrying the negative-quantity line. -/
def negativeQtyReq : CreateOrderReq := { pizzaReq with foodItems := [negativeQtyCart] }

/-- An order of the demo restaurant sitting at table 3, claimed by staff 20. -/
def servedOrder : OrderDoc :=
  { _id := 5, restaurantId := 1, tableId := 3,
    foodItems := [{ foodItemId := 2, variantName := some "Large", quantity := 2, price := 220 }],
    status := "served", isPaid := false, kitchenStaffId := some 20,
    paymentAttempts := [7], notes := none }

/-- Table 3 while `servedOrder` is active. -/
def busyTable : TableDoc := { demoTable with isOccupied := true, currentOrderId := some 5 }

/-- The demo database while `servedOrder` is in progress. -/
def servedDB : DB := { demoDB with orders := [servedOrder], tables := [busyTable] }

/-- `servedOrder` after completion. -/
def completedOrder : OrderDoc := { servedOrder with status := "completed", isPaid := true }

/-- The demo database with the order already completed. -/
def completedDB : DB := { demoDB with orders := [completedOrder] }

/-- `servedOrder` still in `preparing`. -/
def preparingOrder : OrderDoc := { servedOrder with status := "preparing" }

/-- The demo database with the order still in `preparing`. -/
def preparingDB : DB := { demoDB with orders := [preparingOrder], tables := [busyTable] }

/-- Kitchen staff member 20 (listed in `demoRestaurant.staffIds`). -/
def staff20 : AuthUser := { _id := 20, role := "staff" }

/-- Kitchen staff member 21 (also listed, but not the claim owner). -/
def staff21 : AuthUser := { _id := 21, role := "staff" }


/-- A pending order at table 3 together with its pending payment, for the
order-amendment scenario. -/
def pendingOrder : OrderDoc :=
  { _id := 5, restaurantId := 1, tableId := 3,
    foodItems := [{ foodItemId := 2, variantName := none, quantity := 1, price := 200 }],
    status := "pending", isPaid := false, kitchenStaffId := none,
    paymentAttempts := [7], notes := none }

/-- The pending payment of `pendingOrder`. -/
def pendingPayment : PaymentDoc :=
  { _id := 7, orderId := 5, method := "cash", status := "pending",
    subtotal := 200, totalAmount := 210, discountAmount := 0, taxAmount := 10,
    tipAmount := 0, paymentGateway := none, gatewayOrderId := none }

/-- The zero-discount catalog with `pendingOrder` awaiting amendment. -/
def zeroDiscountPendingDB : DB :=
  { zeroDiscountDB with
    orders := [pendingOrder],
    payments := [pendingPayment],
    tables := [busyTable] }

/-- Amend `pendingOrder` to the `Large`-variant line (zero-discount catalog). -/
def zeroDiscountUpdateReq : UpdateOrderReq :=
  { restaurantSlug := "resto", orderId := 5, foodItems := [pizzaCart], notes := none }

/-- An owner principal for the quota scenario. -/
def owner10 : AuthUser := { _id := 10, role := "owner" }

/-- A valid create-restaurant request with a fresh slug. -/
def secondRestaurantReq : CreateRestaurantReq :=
  { restaurantName := "R2", slug := "resto2" }

/-- The owner's subscription upgraded to the medium plan. -/
def mediumSub : SubscriptionDoc := { demoSub with plan := some "medium" }


/-- C1 (amended, part 1 of the proof development).  Every failing
`createOrder` request leaves the restaurants, food items, tables, orders
and payments collections exactly as they were: the transaction body's
writes are session-scoped and `abortTransaction` discards them.  (The
subscriptions collection is exempt — see the counterexample: the
owner-subscription check's lazy-deactivation write escapes the
transaction.) -/
theorem createOrder_failure_preserves_core_collections
    (db : DB) (req : CreateOrderReq) (gw : Rat → Option String) (now : Int)
    (e : ApiError) (h : (createOrder db req gw now).2 = .error e) :
    (createOrder db req gw now).1.orders = db.orders ∧
    (createOrder db req gw now).1.payments = db.payments ∧
    (createOrder db req gw now).1.tables = db.tables ∧
    (createOrder db req gw now).1.restaurants = db.restaurants ∧
    (createOrder db req gw now).1.foodItems = db.foodItems := by
  unfold createOrder at h ⊢
  rcases htx : createOrderTx db req gw now with ⟨subs, res⟩
  rw [htx] at h
  cases res with
  | ok v =>
    rcases v with ⟨db1, o, p⟩
    exact Except.noConfusion h
  | error e1 =>
    exact ⟨rfl, rfl, rfl, rfl, rfl⟩

/-- C1 witness: the gateway returns no id during an online order creation
(`downGateway`); the request fails with the 500 `GatewayError` and the
orders, payments, tables, restaurants and food items collections are
untouched. -/
theorem createOrder_failure_preserves_core_collections_witness :
    (createOrder demoDB pizzaOnlineReq downGateway 0).2 =
      Except.error ⟨500, "Failed to create payment order"⟩ ∧
    (createOrder demoDB pizzaOnlineReq downGateway 0).1.orders = demoDB.orders ∧
    (createOrder demoDB pizzaOnlineReq downGateway 0).1.payments = demoDB.payments ∧
    (createOrder demoDB pizzaOnlineReq downGateway 0).1.tables = demoDB.tables ∧
    (createOrder demoDB pizzaOnlineReq downGateway 0).1.restaurants = demoDB.restaurants ∧
    (createOrder demoDB pizzaOnlineReq downGateway 0).1.foodItems = demoDB.foodItems :=
  ⟨by decide,
   createOrder_failure_preserves_core_collections demoDB pizzaOnlineReq downGateway 0
     ⟨500, "Failed to create payment order"⟩ (by decide)⟩

/-- C1 counterexample: a createOrder request that fails at the
owner-subscription check does NOT leave the whole database unchanged.  The
owner's subscription has lapsed (`subscriptionEndDate = -5 < now = 0`); the
request is denied, no order/payment/table is written, but the lazy
subscription-deactivation write — issued outside the mongoose session —
survives the abort: `isSubscriptionActive` is now persisted as `false`. -/
theorem createOrder_failed_request_can_change_db :
    isOkE (createOrder expiredDB pizzaReq okGateway 0).2 = false ∧
    (createOrder expiredDB pizzaReq okGateway 0).1 ≠ expiredDB ∧
    (createOrder expiredDB pizzaReq okGateway 0).1.subscriptions =
      [{ expiredSub with isSubscriptionActive := false }] := by
  decide

/-- C8: a cart line whose quantity is a negative number is NOT rejected.
`!foodItem.quantity` only catches `0`, `undefined` and non-numbers, so a
quantity of `-2` sails through validation and the order is created and
persisted with a negative subtotal (`-2 × 200 = -400`), contradicting the
spec's "quantity must be a positive number". -/
theorem createOrder_accepts_negative_quantity :
    isOkE (createOrder demoDB negativeQtyReq okGateway 0).2 = true ∧
    (createOrder demoDB negativeQtyReq okGateway 0).1.orders.map
      (fun o => o.foodItems.map (fun l => l.quantity)) = [[-2]] ∧
    (createOrder demoDB negativeQtyReq okGateway 0).1.payments.map
      (fun p => p.subtotal) = [-400] := by
  refine ⟨by decide, by decide, ?_⟩
  norm_num +decide [createOrder, createOrderTx, createOrderValidate, canRestaurantRecieveOrders,
    findRestaurantBySlug, findSubscriptionByUser, findAvailableFoodItem, findTableByQr,
    resolveCart, resolveFoodItemLine, strTruthy, jsOr, lineSubtotal, freshId,
    replaceTableById, replaceOrderById, datePassed, demoDB, demoRestaurant, pizzaItem,
    largeVariant, demoTable, demoSub, negativeQtyReq, negativeQtyCart, pizzaReq, okGateway,
    Bind.bind, Except.bind, pure, Except.pure]

/-- C9: with a well-formed request (name and slug present, slug within the
schema's 3-8 character validator), an owner role, a stored ACTIVE
subscription for the caller and a fresh slug, `createRestaurant` is denied
— precisely with the 403 quota error interpolating the cap — exactly when
the owner's current restaurant count has reached the plan cap, which is 1
for starter (and no plan), 2 for medium and 4 for pro; below the cap the
request succeeds. -/
theorem createRestaurant_quota (db : DB) (user : AuthUser)
    (sub : SubscriptionDoc) (req : CreateRestaurantReq)
    (hname : ¬req.restaurantName = "") (hslug : ¬req.slug = "")
    (hlen : 3 ≤ req.slug.length ∧ req.slug.length ≤ 8)
    (hrole : user.role = "owner")
    (hsub : findSubscriptionByUser db.subscriptions user._id = some sub)
    (hactive : sub.isSubscriptionActive = true)
    (hfresh : db.restaurants.any (fun r => r.slug == req.slug) = false) :
    (planMaxRestaurants (some "starter") = 1 ∧
     planMaxRestaurants (some "medium") = 2 ∧
     planMaxRestaurants (some "pro") = 4) ∧
    ((createRestaurant db user req).2 =
        Except.error ⟨403, "Your plan allows only "
          ++ Nat.repr (planMaxRestaurants sub.plan) ++ " restaurants"⟩ ↔
      countOwnerRestaurants db user._id ≥ planMaxRestaurants sub.plan) ∧
    (countOwnerRestaurants db user._id < planMaxRestaurants sub.plan →
      isOkE (createRestaurant db user req).2 = true) := by
  refine ⟨⟨by decide, by decide, by decide⟩, ?_, ?_⟩
  · unfold createRestaurant canCreateRestaurant
    by_cases hq : countOwnerRestaurants db user._id ≥ planMaxRestaurants sub.plan
    · simp [hname, hslug, hrole, hsub, hactive, hq]
    · simp [hname, hslug, hrole, hsub, hactive, hq, hfresh, hlen.1, hlen.2]
  · intro hlt
    unfold createRestaurant canCreateRestaurant
    have hq : ¬countOwnerRestaurants db user._id ≥ planMaxRestaurants sub.plan := by omega
    simp [hname, hslug, hrole, hsub, hactive, hq, hfresh, hlen.1, hlen.2, isOkE]

/-- `demoDB` with the owner's subscription upgraded to the medium plan. -/
def mediumDB : DB := { demoDB with subscriptions := [mediumSub] }

/-- C9 witness: the owner of `demoRestaurant` (starter plan, already 1
restaurant) is denied a second restaurant with the 403 quota error; after
the plan changes to medium the identical request succeeds. -/
theorem createRestaurant_quota_witness :
    ((createRestaurant demoDB owner10 secondRestaurantReq).2 =
       Except.error ⟨403, "Your plan allows only "
         ++ Nat.repr (planMaxRestaurants demoSub.plan) ++ " restaurants"⟩) ∧
    isOkE (createRestaurant mediumDB owner10 secondRestaurantReq).2 = true := by
  constructor
  · exact ((createRestaurant_quota demoDB owner10 demoSub secondRestaurantReq
      (by decide) (by decide) ⟨by decide, by decide⟩ (by decide) (by decide)
      (by decide) (by decide)).2.1).mpr (by decide)
  · exact (createRestaurant_quota mediumDB owner10 mediumSub secondRestaurantReq
      (by decide) (by decide) ⟨by decide, by decide⟩ (by decide) (by decide)
      (by decide) (by decide)).2.2 (by decide)

/-- C4: terminal states are absorbing.  Whenever the targeted order (found
through the request's restaurant slug and order id) is `completed` or
`cancelled`, `updateOrderStatus` fails — regardless of the requested
status and of the acting user — and the database is untouched: every
check either errors out before any write, and the terminal-state check
guards the only write path. -/
theorem updateOrderStatus_terminal_absorbing (db : DB) (req : UpdateStatusReq)
    (user : AuthUser) (r : Restaurant) (o : OrderDoc)
    (hr : findRestaurantBySlug db req.restaurantSlug = some r)
    (ho : findOrderById db req.orderId r._id = some o)
    (hterm : o.status = "completed" ∨ o.status = "cancelled") :
    (updateOrderStatus db req user).1 = db ∧
    isOkE (updateOrderStatus db req user).2 = false := by
  rcases hterm with hterm | hterm <;>
  · unfold updateOrderStatus
    repeat' split
    all_goals simp_all [isOkE]

/-- A status-update request asking for `pending` on order 5. -/
def pendingStatusReq : UpdateStatusReq :=
  { restaurantSlug := "resto", orderId := 5, status := some "pending" }

/-- A status-update request asking for `ready` on order 5. -/
def readyStatusReq : UpdateStatusReq :=
  { restaurantSlug := "resto", orderId := 5, status := some "ready" }

/-- A status-update request asking for `completed` on order 5. -/
def completedStatusReq : UpdateStatusReq :=
  { restaurantSlug := "resto", orderId := 5, status := some "completed" }

/-- C4 witness: order 5 in `completedDB` is `completed`; the claim owner
staff 20 asks to move it back to `pending` and the request fails, leaving
the database untouched. -/
theorem updateOrderStatus_terminal_absorbing_witness :
    findRestaurantBySlug completedDB "resto" = some demoRestaurant ∧
    findOrderById completedDB 5 demoRestaurant._id = some completedOrder ∧
    completedOrder.status = "completed" ∧
    (updateOrderStatus completedDB pendingStatusReq staff20).1 = completedDB ∧
    isOkE (updateOrderStatus completedDB pendingStatusReq staff20).2 = false := by
  have h := updateOrderStatus_terminal_absorbing completedDB pendingStatusReq staff20
    demoRestaurant completedOrder (by decide) (by decide) (Or.inl (by decide))
  exact ⟨by decide, by decide, by decide, h.1, h.2⟩

/-- C5 counterexample: a backward transition succeeds.  Order 5 is in
`preparing`; its claim owner (staff 20) requests `pending` — a backward
move in the chain pending → preparing → ready → served → completed — and
`updateOrderStatus` accepts it and persists the order back in `pending`:
the controller checks only for a different status, the claim, and the
terminal states, never the direction of travel. -/
theorem updateOrderStatus_backward_transition_succeeds :
    preparingDB.orders.map (fun o => o.status) = ["preparing"] ∧
    isOkE (updateOrderStatus preparingDB pendingStatusReq staff20).2 = true ∧
    (updateOrderStatus preparingDB pendingStatusReq staff20).1.orders.map
      (fun o => o.status) = ["pending"] := by
  decide

/-- How `applyStatusMutation` lands on a non-terminal document when the
requested status is one of the six legal ones: the status write is
effective, the `isPaid` force is always dropped (the hook sees the new,
possibly terminal status), and the kitchen-staff stamp sticks exactly on
moves into `pending`; `tableId` and `_id` are never touched. -/
theorem applyStatusMutation_fields (o : OrderDoc) (s : String) (user : AuthUser)
    (ht1 : ¬o.status = "completed") (ht2 : ¬o.status = "cancelled")
    (hvalid : s ∈ validStatuses) :
    (applyStatusMutation o s user).status = s ∧
    (applyStatusMutation o s user).isPaid = o.isPaid ∧
    (applyStatusMutation o s user).kitchenStaffId =
      (if s = "pending" then some user._id else o.kitchenStaffId) ∧
    (applyStatusMutation o s user).tableId = o.tableId ∧
    (applyStatusMutation o s user)._id = o._id := by
  simp only [validStatuses, List.mem_cons, List.not_mem_nil, or_false] at hvalid
  rcases hvalid with rfl | rfl | rfl | rfl | rfl | rfl <;>
    simp [applyStatusMutation, setOrderStatus, setOrderIsPaid, setOrderKitchenStaffId,
      orderStatusImmutable, orderKitchenStaffImmutable, ht1, ht2]

/-- C5 (amended): `updateOrderStatus` enforces no direction on transitions.
For an authorized user and a non-terminal order, every valid requested
status different from the current one — backward moves included — is
accepted, provided the claim check passes.  The saved document, however,
is filtered by the schema's conditional-immutability hooks (the controller
assigns `status` first): the status write is effective, the completion
`isPaid := true` force is silently dropped, and `kitchenStaffId` is set to
the acting user only when the requested status is `pending`. -/
theorem updateOrderStatus_nonterminal_allows_any_requested_status
    (db : DB) (req : UpdateStatusReq) (user : AuthUser) (r : Restaurant)
    (o : OrderDoc) (s : String)
    (hslug : ¬req.restaurantSlug = "")
    (hs : strTruthy req.status = some s)
    (hvalid : validStatuses.contains s = true)
    (hr : findRestaurantBySlug db req.restaurantSlug = some r)
    (hauth : staffAuthCheck r user = none)
    (ho : findOrderById db req.orderId r._id = some o)
    (hneq : ¬o.status = s)
    (hclaim : o.kitchenStaffId = none ∨ o.kitchenStaffId = some user._id)
    (hterm : ¬(o.status = "completed" ∨ o.status = "cancelled")) :
    (updateOrderStatus db req user).2 = .ok (applyStatusMutation o s user) ∧
    (applyStatusMutation o s user).status = s ∧
    (applyStatusMutation o s user).isPaid = o.isPaid ∧
    (applyStatusMutation o s user).kitchenStaffId =
      (if s = "pending" then some user._id else o.kitchenStaffId) := by
  obtain ⟨ht1, ht2⟩ := not_or.mp hterm
  have hvalid6 : s ∈ validStatuses := by
    simpa only [List.contains, List.elem_eq_mem, decide_eq_true_eq] using hvalid
  obtain ⟨hst, hip, hks, _, _⟩ := applyStatusMutation_fields o s user ht1 ht2 hvalid6
  refine ⟨?_, hst, hip, hks⟩
  rcases hclaim with hclaim | hclaim <;>
  · unfold updateOrderStatus
    simp [hslug, hs, hvalid6, hr, hauth, ho, hneq, hclaim, ht1, ht2]
    try (split <;> rfl)

/-- C5 witness: the amended rule instantiated on the backward move
`preparing → pending` by the claim-owning staff member; here the
kitchen-staff stamp is effective (the new status is `pending`). -/
theorem updateOrderStatus_nonterminal_allows_any_requested_status_witness :
    preparingOrder.status = "preparing" ∧
    ((updateOrderStatus preparingDB pendingStatusReq staff20).2 =
       .ok (applyStatusMutation preparingOrder "pending" staff20) ∧
     (applyStatusMutation preparingOrder "pending" staff20).status = "pending" ∧
     (applyStatusMutation preparingOrder "pending" staff20).isPaid = preparingOrder.isPaid ∧
     (applyStatusMutation preparingOrder "pending" staff20).kitchenStaffId =
       (if "pending" = "pending" then some staff20._id else preparingOrder.kitchenStaffId)) :=
  ⟨by decide,
   updateOrderStatus_nonterminal_allows_any_requested_status preparingDB pendingStatusReq
     staff20 demoRestaurant preparingOrder "pending" (by decide) (by decide) (by decide)
     (by decide) (by decide) (by decide) (by decide) (Or.inr (by decide)) (by decide)⟩

/-- Inversion of a successful `updateOrderStatus`: the request parsed to a
valid status `s`, the restaurant and the order were found, the order was
non-terminal, the returned order is `applyStatusMutation` of the stored
one, and the tables collection is released through `releaseTableById`
exactly when the requested status is terminal. -/
theorem updateOrderStatus_ok_inv (db : DB) (req : UpdateStatusReq)
    (user : AuthUser) (o' : OrderDoc)
    (h : (updateOrderStatus db req user).2 = .ok o') :
    ∃ s r o, strTruthy req.status = some s ∧ s ∈ validStatuses ∧
      findRestaurantBySlug db req.restaurantSlug = some r ∧
      findOrderById db req.orderId r._id = some o ∧
      (¬o.status = "completed" ∧ ¬o.status = "cancelled") ∧
      o' = applyStatusMutation o s user ∧
      (updateOrderStatus db req user).1.tables =
        (if s = "completed" ∨ s = "cancelled"
         then releaseTableById db.tables o.tableId else db.tables) := by
  unfold updateOrderStatus at h ⊢
  repeat' split at h
  all_goals try simp at h
  all_goals try subst h
  all_goals simp_all

/-- The order in `preparing` with no claim owner recorded. -/
def unclaimedOrder : OrderDoc := { preparingOrder with kitchenStaffId := none }

/-- The demo database with the unclaimed preparing order at table 3. -/
def unclaimedDB : DB := { demoDB with orders := [unclaimedOrder], tables := [busyTable] }

/-- C6 counterexample: a successful transition does NOT record the acting
user as the order's kitchen staff.  Staff 20 moves the unclaimed
`preparing` order to `ready`; the request succeeds, but the schema hook on
`kitchenStaffId` (immutable unless the document reads `pending` — and the
controller assigns the new status first) drops the stamp:
`kitchenStaffId` is still `none` afterwards. -/
theorem updateOrderStatus_forward_transition_does_not_claim :
    unclaimedOrder.kitchenStaffId = none ∧
    isOkE (updateOrderStatus unclaimedDB readyStatusReq staff20).2 = true ∧
    (updateOrderStatus unclaimedDB readyStatusReq staff20).1.orders.map
      (fun o => o.kitchenStaffId) = [none] ∧
    ¬(none : Option Nat) = some staff20._id := by
  decide

/-- C6 (amended): claim exclusivity.  First part: when the targeted order
is already claimed by `k` and the acting (authorized) user is someone else
requesting a genuinely different valid status, `updateOrderStatus` answers
exactly the 403 claim error and writes nothing.  Second part: a successful
transition stamps `kitchenStaffId` with the acting user's id ONLY when the
new status is `pending` — for every other requested status the schema hook
(evaluated after the status assignment) drops the write and the claim
field keeps its prior value. -/
theorem updateOrderStatus_claim_exclusivity (db : DB) (req : UpdateStatusReq)
    (user : AuthUser) :
    (∀ r o k s,
       ¬req.restaurantSlug = "" →
       strTruthy req.status = some s →
       validStatuses.contains s = true →
       findRestaurantBySlug db req.restaurantSlug = some r →
       staffAuthCheck r user = none →
       findOrderById db req.orderId r._id = some o →
       o.kitchenStaffId = some k →
       ¬k = user._id →
       ¬o.status = s →
       (updateOrderStatus db req user).1 = db ∧
       (updateOrderStatus db req user).2 =
         .error ⟨403, "Only the kitchen staff who updated the order can change its status"⟩) ∧
    (∀ r o o',
       findRestaurantBySlug db req.restaurantSlug = some r →
       findOrderById db req.orderId r._id = some o →
       (updateOrderStatus db req user).2 = .ok o' →
       o'.kitchenStaffId =
         (if o'.status = "pending" then some user._id else o.kitchenStaffId)) := by
  constructor
  · intro r o k s hslug hs hvalid hr hauth ho hk hkne hneq
    simp only [List.contains, List.elem_eq_mem, decide_eq_true_eq] at hvalid
    have hbne : (k != user._id) = true := by simp [hkne]
    unfold updateOrderStatus
    simp [hslug, hs, hvalid, hr, hauth, ho, hneq, hk, hbne]
  · intro r o o' hr ho h
    obtain ⟨s, r0, o0, hs, hvalid, hr0, ho0, ⟨ht1, ht2⟩, ho', htab⟩ :=
      updateOrderStatus_ok_inv db req user o' h
    rw [hr] at hr0
    obtain rfl := Option.some.inj hr0
    rw [ho] at ho0
    obtain rfl := Option.some.inj ho0
    subst ho'
    obtain ⟨hst, _, hks, _, _⟩ := applyStatusMutation_fields o s user ht1 ht2 hvalid
    rw [hks, hst]

/-- C6 witness: order 5 in `preparingDB` is claimed by staff 20; staff 21
(also on the roster) asks `preparing → ready` and gets the 403 claim
error with the database untouched. -/
theorem updateOrderStatus_claim_exclusivity_witness :
    (updateOrderStatus preparingDB readyStatusReq staff21).1 = preparingDB ∧
    (updateOrderStatus preparingDB readyStatusReq staff21).2 =
      .error ⟨403, "Only the kitchen staff who updated the order can change its status"⟩ :=
  (updateOrderStatus_claim_exclusivity preparingDB readyStatusReq staff21).1
    demoRestaurant preparingOrder 20 "ready" (by decide) (by decide) (by decide)
    (by decide) (by decide) (by decide) (by decide) (by decide) (by decide)

/-- Replacing a table document by id only exchanges the stored document
with the new one: every member of the result was already stored or is the
replacement. -/
theorem replaceTableById_mem (ts : List TableDoc) (x t' : TableDoc)
    (h : t' ∈ replaceTableById ts x) : t' ∈ ts ∨ t' = x := by
  induction ts with
  | nil => simp [replaceTableById] at h
  | cons t rest ih =>
    rw [replaceTableById] at h
    split at h
    · rcases List.mem_cons.mp h with h1 | h1
      · exact Or.inr h1
      · exact Or.inl (List.mem_cons_of_mem _ h1)
    · rcases List.mem_cons.mp h with h1 | h1
      · exact Or.inl (h1 ▸ List.mem_cons_self _ _)
      · rcases ih h1 with h2 | h2
        · exact Or.inl (List.mem_cons_of_mem _ h2)
        · exact Or.inr h2

/-- The table release is a frame-preserving update: every table visible
after `releaseTableById` is either an untouched stored table or a stored
table with exactly `isOccupied` cleared and `currentOrderId` removed. -/
theorem releaseTableById_frame (ts : List TableDoc) (tid : Nat) (t' : TableDoc)
    (h : t' ∈ releaseTableById ts tid) :
    ∃ t ∈ ts, t' = t ∨ t' = { t with isOccupied := false, currentOrderId := none } := by
  unfold releaseTableById at h
  split at h
  · rename_i t0 heq
    rcases replaceTableById_mem ts _ t' h with h1 | h1
    · exact ⟨t', h1, Or.inl rfl⟩
    · exact ⟨t0, List.mem_of_find?_eq_some heq, Or.inr h1⟩
  · exact ⟨t', h, Or.inl rfl⟩

/-- `servedOrder` after the completion request: the status write is
effective, but the `isPaid := true` force is dropped by the schema hook
(the document already reads `completed` when it runs), so the order is
persisted completed yet UNPAID; the claim stamp is likewise dropped,
keeping staff 20. -/
def completedUnpaidOrder : OrderDoc := { servedOrder with status := "completed" }

/-- C7 counterexample: completing an order does NOT set `isPaid`.  Staff 20
completes the served (unpaid) order 5; the request succeeds and the order
is persisted with status `completed`, but `isPaid` is still `false`: the
controller assigns `status` before `isPaid`, so the schema's conditional
immutability on `isPaid` (frozen once the document reads
completed/cancelled) silently drops the force. -/
theorem updateOrderStatus_completion_does_not_set_isPaid :
    servedOrder.isPaid = false ∧
    isOkE (updateOrderStatus servedDB completedStatusReq staff20).2 = true ∧
    (updateOrderStatus servedDB completedStatusReq staff20).1.orders.map
      (fun o => (o.status, o.isPaid)) = [("completed", false)] := by
  decide

/-- C7 (amended): completion side effects.  On every successful transition
to a terminal status the tables collection equals the release of the
order's table (`isOccupied := false`, `currentOrderId` cleared); every
table after the request is a previously stored table either untouched or
with exactly those two fields changed; and — against the claim's first
half — the returned order's `isPaid` always equals the stored order's:
the completion force never survives the schema hook. -/
theorem updateOrderStatus_completion_side_effects (db : DB) (req : UpdateStatusReq)
    (user : AuthUser) (o' : OrderDoc)
    (h : (updateOrderStatus db req user).2 = .ok o') :
    ((o'.status = "completed" ∨ o'.status = "cancelled") →
       (updateOrderStatus db req user).1.tables = releaseTableById db.tables o'.tableId) ∧
    (∀ t' ∈ (updateOrderStatus db req user).1.tables, ∃ t ∈ db.tables,
       t' = t ∨ t' = { t with isOccupied := false, currentOrderId := none }) ∧
    (∀ r o, findRestaurantBySlug db req.restaurantSlug = some r →
       findOrderById db req.orderId r._id = some o →
       o'.isPaid = o.isPaid) := by
  obtain ⟨s, r0, o0, hs, hvalid, hr0, ho0, ⟨ht1, ht2⟩, ho', htab⟩ :=
    updateOrderStatus_ok_inv db req user o' h
  obtain ⟨hst, hip, hks, htid, _⟩ := applyStatusMutation_fields o0 s user ht1 ht2 hvalid
  rw [← ho'] at hst hip htid
  refine ⟨?_, ?_, ?_⟩
  · intro hterm
    rw [hst] at hterm
    rw [htab, if_pos hterm, htid]
  · intro t' ht'
    rw [htab] at ht'
    by_cases hterm : s = "completed" ∨ s = "cancelled"
    · rw [if_pos hterm] at ht'
      exact releaseTableById_frame db.tables o0.tableId t' ht'
    · rw [if_neg hterm] at ht'
      exact ⟨t', ht', Or.inl rfl⟩
  · intro r o hr ho
    rw [hr] at hr0
    obtain rfl := Option.some.inj hr0
    rw [ho] at ho0
    obtain rfl := Option.some.inj ho0
    exact hip

/-- C7 witness: staff 20 completes the served order 5; the request succeeds
with the order completed but still unpaid, and table 3 is released —
`isOccupied` false, `currentOrderId` cleared, name and slug untouched. -/
theorem updateOrderStatus_completion_side_effects_witness :
    (updateOrderStatus servedDB completedStatusReq staff20).2 = .ok completedUnpaidOrder ∧
    (updateOrderStatus servedDB completedStatusReq staff20).1.tables =
      releaseTableById servedDB.tables completedUnpaidOrder.tableId ∧
    releaseTableById servedDB.tables completedUnpaidOrder.tableId =
      [{ busyTable with isOccupied := false, currentOrderId := none }] ∧
    completedUnpaidOrder.isPaid = servedOrder.isPaid ∧
    completedUnpaidOrder.isPaid = false := by
  have h : (updateOrderStatus servedDB completedStatusReq staff20).2 =
      .ok completedUnpaidOrder := by decide
  have hc := updateOrderStatus_completion_side_effects servedDB completedStatusReq
    staff20 completedUnpaidOrder h
  exact ⟨h, hc.1 (Or.inl (by decide)), by decide,
    hc.2.2 demoRestaurant servedOrder (by decide) (by decide), by decide⟩

/-- The lookup that produced a food item can be replayed with the item's
own `_id`: the stored filter matched `fi._id == fid`. -/
theorem findAvailableFoodItem_self (db : DB) (fid rid : Nat) (fi : FoodItemDoc)
    (h : findAvailableFoodItem db fid rid = some fi) :
    findAvailableFoodItem db fi._id rid = some fi := by
  have hp := List.find?_some h
  simp only [Bool.and_eq_true, beq_iff_eq] at hp
  rw [hp.1.1]
  exact h

/-- The catalog-price contract of one persisted order line: its food item
is available in the restaurant's live catalog, and its price is the
server-resolved one — for a variant line `discountedPrice || price` of the
named variant (the JS `||`, so a zero discount falls back to the variant
price), for a base line the item's plain `price` (the base
`discountedPrice` plays no role).  A client-supplied price never enters. -/
def linePriceSpec (db : DB) (rid : Nat) (l : OrderLine) : Prop :=
  ∃ fi, findAvailableFoodItem db l.foodItemId rid = some fi ∧
    (match l.variantName with
     | some vn => ∃ v, fi.variants.find? (fun x => x.variantName == vn) = some v ∧
         l.price = jsOr v.discountedPrice v.price
     | none => l.price = fi.price)

/-- Every line accepted by the shared cart-validation loop body satisfies
the catalog-price contract. -/
theorem resolveFoodItemLine_ok_spec (db : DB) (rid : Nat) (line : CartLineReq)
    (l : OrderLine) (h : resolveFoodItemLine db rid line = .ok l) :
    linePriceSpec db rid l := by
  unfold resolveFoodItemLine at h
  repeat' split at h
  all_goals try simp at h
  all_goals try subst h
  all_goals simp_all [linePriceSpec]
  all_goals first
    | exact ⟨_, findAvailableFoodItem_self _ _ _ _ (by assumption), _, by assumption, rfl⟩
    | exact ⟨_, findAvailableFoodItem_self _ _ _ _ (by assumption), rfl⟩

/-- Every line of an accepted cart satisfies the catalog-price contract. -/
theorem resolveCart_ok_spec (db : DB) (rid : Nat) (cart : List CartLineReq)
    (lines : List OrderLine) (h : resolveCart db rid cart = .ok lines) :
    ∀ l ∈ lines, linePriceSpec db rid l := by
  induction cart generalizing lines with
  | nil =>
    unfold resolveCart at h
    simp at h
    subst h
    intro l hl
    simp at hl
  | cons line rest ih =>
    unfold resolveCart at h
    rcases h1 : resolveFoodItemLine db rid line with e | l0 <;> rw [h1] at h
    · simp at h
    · rcases h2 : resolveCart db rid rest with e | ls0 <;> rw [h2] at h
      · simp at h
      · simp only [Except.ok.injEq] at h
        subst h
        intro l hl
        rcases List.mem_cons.mp hl with hl | hl
        · exact hl ▸ resolveFoodItemLine_ok_spec db rid line l0 h1
        · exact ih ls0 h2 l hl

/-- Overwrite the client-supplied `price` of every cart line. -/
def scrubPrices (c : List CartLineReq) (pr : Option Rat) : List CartLineReq :=
  c.map (fun l => { l with price := pr })

/-- The loop body never reads the client's `price` field. -/
theorem resolveFoodItemLine_client_price_ignored (db : DB) (rid : Nat)
    (line : CartLineReq) (pr : Option Rat) :
    resolveFoodItemLine db rid { line with price := pr } =
      resolveFoodItemLine db rid line := rfl

/-- Cart resolution is independent of every client-supplied price. -/
theorem resolveCart_client_price_ignored (db : DB) (rid : Nat)
    (cart : List CartLineReq) (pr : Option Rat) :
    resolveCart db rid (scrubPrices cart pr) = resolveCart db rid cart := by
  induction cart with
  | nil => rfl
  | cons line rest ih =>
    simp only [scrubPrices, List.map_cons] at ih ⊢
    rw [resolveCart, resolveCart, resolveFoodItemLine_client_price_ignored, ih]

/-- Inversion of a successful `createOrderValidate`: the restaurant came
from the slug lookup and the lines from `resolveCart` under that
restaurant's id. -/
theorem createOrderValidate_ok_inv (db : DB) (req : CreateOrderReq)
    (r : Restaurant) (lines : List OrderLine) (t : TableDoc)
    (h : createOrderValidate db req = .ok (r, lines, t)) :
    findRestaurantBySlug db req.restaurantSlug = some r ∧
    resolveCart db r._id req.foodItems = .ok lines := by
  unfold createOrderValidate at h
  repeat' split at h
  all_goals simp_all

/-- Inversion of a successful `createOrder`: the persisted order embeds
exactly the resolved cart, opens in `pending` unpaid, and the payment
carries the computed subtotal, tax and total of the restaurant found by
the request's slug. -/
theorem createOrder_ok_inv (db : DB) (req : CreateOrderReq)
    (gw : Rat → Option String) (now : Int) (db' : DB) (o : OrderDoc)
    (p : PaymentDoc) (h : createOrder db req gw now = (db', .ok (o, p))) :
    ∃ r lines t, createOrderValidate db req = .ok (r, lines, t) ∧
      o.foodItems = lines ∧ o.restaurantId = r._id ∧ o.status = "pending" ∧
      o.isPaid = false ∧
      p.subtotal = lineSubtotal lines ∧
      p.taxAmount = (if r.isTaxIncludedInPrice then 0
                     else lineSubtotal lines * r.taxRate / 100) ∧
      p.totalAmount = (if r.isTaxIncludedInPrice then lineSubtotal lines
                       else lineSubtotal lines + lineSubtotal lines * r.taxRate / 100) := by
  unfold createOrder at h
  rcases htx : createOrderTx db req gw now with ⟨subs, res⟩
  rw [htx] at h
  cases res with
  | error e => simp at h
  | ok v =>
    rcases v with ⟨dbx, ox, px⟩
    simp at h
    obtain ⟨h1, h2, h3⟩ := h
    subst h2
    subst h3
    unfold createOrderTx at htx
    repeat' split at htx
    all_goals try simp at htx
    all_goals repeat' split at htx
    all_goals try simp at htx
    all_goals try (obtain ⟨hs1, hs2, hs3, hs4⟩ := htx; subst hs3; subst hs4)
    all_goals refine ⟨_, _, _, by assumption, rfl, rfl, rfl, rfl, rfl, ?_, ?_⟩ <;> simp_all

/-- An order found under a restaurant id indeed belongs to it (the stored
filter matched `restaurantId`). -/
theorem findOrderById_restaurantId (db : DB) (oid rid : Nat) (o : OrderDoc)
    (h : findOrderById db oid rid = some o) : o.restaurantId = rid := by
  unfold findOrderById at h
  have hp := List.find?_some h
  simp only [Bool.and_eq_true, beq_iff_eq] at hp
  exact hp.2

/-- Inversion of a successful `updateOrder`: the amended order persists
exactly the freshly resolved cart, resolved against the restaurant found
by the request's slug, which is also the order's restaurant. -/
theorem updateOrder_ok_inv (db : DB) (req : UpdateOrderReq) (user : AuthUser)
    (db' : DB) (o' : OrderDoc) (h : updateOrder db req user = (db', .ok o')) :
    ∃ r lines, findRestaurantBySlug db req.restaurantSlug = some r ∧
      resolveCart db r._id req.foodItems = .ok lines ∧
      o'.foodItems = lines ∧ o'.restaurantId = r._id := by
  unfold updateOrder at h
  rcases htx : updateOrderTx db req user with e | v <;> rw [htx] at h
  · simp at h
  · rcases v with ⟨dbx, ox⟩
    simp at h
    obtain ⟨hdb, ho2⟩ := h
    subst hdb
    subst ho2
    unfold updateOrderTx at htx
    repeat' split at htx
    all_goals try simp at htx
    all_goals try (obtain ⟨hs1, hs2⟩ := htx; subst hs1; subst hs2)
    all_goals refine ⟨_, _, by assumption, by assumption, rfl, ?_⟩
    all_goals dsimp only
    all_goals exact findOrderById_restaurantId _ _ _ _ (by assumption)

/-- Scrubbing prices keeps the cart's length and emptiness. -/
theorem scrubPrices_isEmpty (c : List CartLineReq) (pr : Option Rat) :
    (scrubPrices c pr).isEmpty = c.isEmpty := by
  cases c <;> rfl

/-- `createOrderValidate` never reads a client-supplied line price. -/
theorem createOrderValidate_scrub (db : DB) (req : CreateOrderReq) (pr : Option Rat) :
    createOrderValidate db { req with foodItems := scrubPrices req.foodItems pr } =
      createOrderValidate db req := by
  unfold createOrderValidate
  dsimp only
  simp only [scrubPrices_isEmpty, resolveCart_client_price_ignored]

/-- `createOrder` is invariant under every client-supplied line price. -/
theorem createOrder_client_price_ignored (db : DB) (req : CreateOrderReq)
    (gw : Rat → Option String) (now : Int) (pr : Option Rat) :
    createOrder db { req with foodItems := scrubPrices req.foodItems pr } gw now =
      createOrder db req gw now := by
  unfold createOrder createOrderTx
  rw [createOrderValidate_scrub db req pr]

/-- `updateOrder` is invariant under every client-supplied line price. -/
theorem updateOrder_client_price_ignored (db : DB) (req : UpdateOrderReq)
    (user : AuthUser) (pr : Option Rat) :
    updateOrder db { req with foodItems := scrubPrices req.foodItems pr } user =
      updateOrder db req user := by
  unfold updateOrder updateOrderTx
  dsimp only
  simp only [scrubPrices_isEmpty, resolveCart_client_price_ignored]

/-- C2 counterexample: a present-but-zero variant `discountedPrice` is NOT
used as the persisted line price.  In `zeroDiscountDB` the `Large` variant
has `discountedPrice = some 0`; the accepted order persists the line at
the variant's full price `250`, not at the present discounted price `0` —
the JS `||` treats the zero discount as absent. -/
theorem createOrder_zero_discount_price_not_discounted :
    zeroDiscountDB.foodItems.map (fun fi => fi.variants.map (fun v => v.discountedPrice)) =
      [[some 0]] ∧
    isOkE (createOrder zeroDiscountDB pizzaReq okGateway 0).2 = true ∧
    (createOrder zeroDiscountDB pizzaReq okGateway 0).1.orders.map
      (fun o => o.foodItems.map (fun l => l.price)) = [[250]] ∧
    ¬(250 : Rat) = 0 := by
  decide

/-- C2 (amended): price integrity of menu resolution.  Every line of a
successfully persisted cart satisfies the catalog-price contract
`linePriceSpec`: a variant line carries the variant's discounted price
when present and non-zero, else the variant's price (JS `||`); a base line
carries the item's plain `price` and the base `discountedPrice` is never
consulted.  Moreover both `createOrder` and `updateOrder` are invariant
under arbitrary client-supplied line prices: the client's `price` field is
never used. -/
theorem order_line_prices_are_server_resolved (db : DB) (req : CreateOrderReq)
    (ureq : UpdateOrderReq) (gw : Rat → Option String) (now : Int)
    (user : AuthUser) :
    (∀ db' o p, createOrder db req gw now = (db', .ok (o, p)) →
       ∀ l ∈ o.foodItems, linePriceSpec db o.restaurantId l) ∧
    (∀ pr, createOrder db { req with foodItems := scrubPrices req.foodItems pr } gw now =
       createOrder db req gw now) ∧
    (∀ db' o', updateOrder db ureq user = (db', .ok o') →
       ∀ l ∈ o'.foodItems, linePriceSpec db o'.restaurantId l) ∧
    (∀ pr, updateOrder db { ureq with foodItems := scrubPrices ureq.foodItems pr } user =
       updateOrder db ureq user) := by
  refine ⟨?_, fun pr => createOrder_client_price_ignored db req gw now pr, ?_,
    fun pr => updateOrder_client_price_ignored db ureq user pr⟩
  · intro db' o p h l hl
    obtain ⟨r, lines, t, hval, hfood, hrid, _, _, _, _, _⟩ :=
      createOrder_ok_inv db req gw now db' o p h
    obtain ⟨hr, hcart⟩ := createOrderValidate_ok_inv db req r lines t hval
    rw [hrid]
    exact resolveCart_ok_spec db r._id req.foodItems lines hcart l (hfood ▸ hl)
  · intro db' o' h l hl
    obtain ⟨r, lines, hr, hcart, hfood, hrid⟩ := updateOrder_ok_inv db ureq user db' o' h
    rw [hrid]
    exact resolveCart_ok_spec db r._id ureq.foodItems lines hcart l (hfood ▸ hl)

/-- C3: financial totals.  For every successfully created order, the
payment record satisfies `subtotal = Σ line.price * line.quantity` over the
persisted lines, `taxAmount = 0` when the restaurant includes tax in its
prices and `subtotal * taxRate / 100` otherwise, and
`totalAmount = subtotal + taxAmount`. -/
theorem createOrder_financial_totals (db : DB) (req : CreateOrderReq)
    (gw : Rat → Option String) (now : Int) (db' : DB) (o : OrderDoc)
    (p : PaymentDoc) (r : Restaurant)
    (h : createOrder db req gw now = (db', .ok (o, p)))
    (hr : findRestaurantBySlug db req.restaurantSlug = some r) :
    p.subtotal = lineSubtotal o.foodItems ∧
    p.taxAmount = (if r.isTaxIncludedInPrice then 0 else p.subtotal * r.taxRate / 100) ∧
    p.totalAmount = p.subtotal + p.taxAmount := by
  obtain ⟨r0, lines, t, hval, hfood, hrid, hst, hip, hsub, htax, htot⟩ :=
    createOrder_ok_inv db req gw now db' o p h
  obtain ⟨hr0, hcart⟩ := createOrderValidate_ok_inv db req r0 lines t hval
  rw [hr0] at hr
  injection hr with hr
  subst hr
  refine ⟨by rw [hsub, hfood], by rw [htax, hsub], ?_⟩
  rw [htot, hsub, htax]
  by_cases hti : r0.isTaxIncludedInPrice <;> simp [hti]

/-- C10: the zero-discount edge case.  In both `createOrder` and
`updateOrder`, a persisted line naming a variant whose `discountedPrice`
is `0` carries the variant's full `price`, never `0`: the snapshot uses
JS `||`, for which a zero discounted price is as good as absent. -/
theorem zero_discount_uses_variant_full_price (db : DB) :
    (∀ req gw now db' o p, createOrder db req gw now = (db', .ok (o, p)) →
      ∀ l ∈ o.foodItems, ∀ vn fi v,
        l.variantName = some vn →
        findAvailableFoodItem db l.foodItemId o.restaurantId = some fi →
        fi.variants.find? (fun x => x.variantName == vn) = some v →
        v.discountedPrice = some 0 →
        l.price = v.price) ∧
    (∀ req user db' o', updateOrder db req user = (db', .ok o') →
      ∀ l ∈ o'.foodItems, ∀ vn fi v,
        l.variantName = some vn →
        findAvailableFoodItem db l.foodItemId o'.restaurantId = some fi →
        fi.variants.find? (fun x => x.variantName == vn) = some v →
        v.discountedPrice = some 0 →
        l.price = v.price) := by
  have key : ∀ rid l, linePriceSpec db rid l →
      ∀ vn fi v, l.variantName = some vn →
        findAvailableFoodItem db l.foodItemId rid = some fi →
        fi.variants.find? (fun x => x.variantName == vn) = some v →
        v.discountedPrice = some 0 →
        l.price = v.price := by
    intro rid l hspec vn fi v hvn hfi hv hd0
    obtain ⟨fi0, hfi0, hm⟩ := hspec
    rw [hfi0] at hfi
    injection hfi with hfi
    subst hfi
    rw [hvn] at hm
    simp only at hm
    obtain ⟨v0, hv0, hprice⟩ := hm
    rw [hv0] at hv
    injection hv with hv
    subst hv
    rw [hd0] at hprice
    simpa [jsOr] using hprice
  constructor
  · intro req gw now db' o p h l hl vn fi v hvn hfi hv hd0
    obtain ⟨r, lines, t, hval, hfood, hrid, _, _, _, _, _⟩ :=
      createOrder_ok_inv db req gw now db' o p h
    obtain ⟨hr, hcart⟩ := createOrderValidate_ok_inv db req r lines t hval
    have hspec := resolveCart_ok_spec db r._id req.foodItems lines hcart l (hfood ▸ hl)
    rw [hrid] at hfi
    exact key r._id l hspec vn fi v hvn hfi hv hd0
  · intro req user db' o' h l hl vn fi v hvn hfi hv hd0
    obtain ⟨r, lines, hr, hcart, hfood, hrid⟩ := updateOrder_ok_inv db req user db' o' h
    have hspec := resolveCart_ok_spec db r._id req.foodItems lines hcart l (hfood ▸ hl)
    rw [hrid] at hfi
    exact key r._id l hspec vn fi v hvn hfi hv hd0

/-- The line the pizza scenario persists: `Large` at the discounted 220. -/
def pizzaLine : OrderLine :=
  { foodItemId := 2, variantName := some "Large", quantity := 2, price := 220 }

/-- The order the pizza scenario creates. -/
def pizzaOrder : OrderDoc :=
  { _id := 1, restaurantId := 1, tableId := 3, foodItems := [pizzaLine],
    status := "pending", isPaid := false, kitchenStaffId := none,
    paymentAttempts := [1], notes := none }

/-- The payment the pizza scenario creates: 440 + 22 tax = 462. -/
def pizzaPayment : PaymentDoc :=
  { _id := 1, orderId := 1, method := "cash", status := "pending",
    subtotal := 440, totalAmount := 462, discountAmount := 0, taxAmount := 22,
    tipAmount := 0, paymentGateway := none, gatewayOrderId := none }

/-- The database after the pizza scenario: order and payment stored, the
table occupied and linked. -/
def pizzaDBAfter : DB :=
  { demoDB with
    orders := [pizzaOrder],
    payments := [pizzaPayment],
    tables := [{ demoTable with isOccupied := true, currentOrderId := some 1 }] }

/-- The spec's concrete cash-order scenario, evaluated: resolved line price
220, subtotal 440, taxAmount 22, totalAmount 462, order pending, table
occupied. -/
theorem pizzaScenario_eval :
    createOrder demoDB pizzaReq okGateway 0 =
      (pizzaDBAfter, .ok (pizzaOrder, pizzaPayment)) := by
  norm_num +decide [createOrder, createOrderTx, createOrderValidate,
    canRestaurantRecieveOrders, findRestaurantBySlug, findSubscriptionByUser,
    findAvailableFoodItem, findTableByQr, resolveCart, resolveFoodItemLine,
    strTruthy, jsOr, lineSubtotal, freshId, replaceTableById, replaceOrderById,
    datePassed, demoDB, demoRestaurant, pizzaItem, largeVariant, demoTable,
    demoSub, pizzaCart, pizzaReq, okGateway, pizzaDBAfter, pizzaOrder,
    pizzaPayment, pizzaLine]

/-- C3 witness: the spec's concrete scenario — variant discounted price
220, quantity 2, taxRate 5, tax not included — yields subtotal 440,
taxAmount 22, totalAmount 462, and satisfies the general totals law. -/
theorem createOrder_financial_totals_witness :
    createOrder demoDB pizzaReq okGateway 0 =
      (pizzaDBAfter, .ok (pizzaOrder, pizzaPayment)) ∧
    pizzaPayment.subtotal = 440 ∧ pizzaPayment.taxAmount = 22 ∧
    pizzaPayment.totalAmount = 462 ∧
    (pizzaPayment.subtotal = lineSubtotal pizzaOrder.foodItems ∧
     pizzaPayment.taxAmount =
       (if demoRestaurant.isTaxIncludedInPrice then 0
        else pizzaPayment.subtotal * demoRestaurant.taxRate / 100) ∧
     pizzaPayment.totalAmount = pizzaPayment.subtotal + pizzaPayment.taxAmount) :=
  ⟨pizzaScenario_eval, rfl, rfl, rfl,
   createOrder_financial_totals demoDB pizzaReq okGateway 0 pizzaDBAfter
     pizzaOrder pizzaPayment demoRestaurant pizzaScenario_eval (by decide)⟩

/-- C2 witness: in the pizza scenario the persisted line satisfies the
catalog-price contract, and overwriting every client-sent price (here with
999) does not change the outcome of the request at all. -/
theorem order_line_prices_are_server_resolved_witness :
    linePriceSpec demoDB pizzaOrder.restaurantId pizzaLine ∧
    createOrder demoDB
        { pizzaReq with foodItems := scrubPrices pizzaReq.foodItems (some 999) }
        okGateway 0 =
      createOrder demoDB pizzaReq okGateway 0 := by
  have hc := order_line_prices_are_server_resolved demoDB pizzaReq
    zeroDiscountUpdateReq okGateway 0 staff20
  exact ⟨hc.1 pizzaDBAfter pizzaOrder pizzaPayment pizzaScenario_eval pizzaLine
    (by decide), hc.2.1 (some 999)⟩

/-- The `Large` variant with its discounted price set to `0`. -/
def zeroVariant : Variant := { largeVariant with discountedPrice := some 0 }

/-- The line persisted from the zero-discount catalog: full price 250. -/
def zeroLine : OrderLine :=
  { foodItemId := 2, variantName := some "Large", quantity := 2, price := 250 }

/-- The order created from the zero-discount catalog. -/
def zeroOrderDocC : OrderDoc := { pizzaOrder with foodItems := [zeroLine] }

/-- Its payment: subtotal 500, tax 25, total 525. -/
def zeroPaymentDoc : PaymentDoc :=
  { pizzaPayment with subtotal := 500, totalAmount := 525, taxAmount := 25 }

/-- The database after creating the zero-discount order. -/
def zeroCreateDBAfter : DB :=
  { zeroDiscountDB with
    orders := [zeroOrderDocC],
    payments := [zeroPaymentDoc],
    tables := [{ demoTable with isOccupied := true, currentOrderId := some 1 }] }

/-- Creating an order against the zero-discount catalog persists the line
at the variant's full price 250. -/
theorem zeroCreate_eval :
    createOrder zeroDiscountDB pizzaReq okGateway 0 =
      (zeroCreateDBAfter, .ok (zeroOrderDocC, zeroPaymentDoc)) := by
  norm_num +decide [createOrder, createOrderTx, createOrderValidate,
    canRestaurantRecieveOrders, findRestaurantBySlug, findSubscriptionByUser,
    findAvailableFoodItem, findTableByQr, resolveCart, resolveFoodItemLine,
    strTruthy, jsOr, lineSubtotal, freshId, replaceTableById, replaceOrderById,
    datePassed, demoDB, demoRestaurant, pizzaItem, largeVariant, demoTable,
    demoSub, pizzaCart, pizzaReq, okGateway, zeroDiscountDB, zeroDiscountItem,
    zeroCreateDBAfter, zeroOrderDocC, zeroPaymentDoc, zeroLine, pizzaOrder,
    pizzaPayment, pizzaLine]

/-- The pending order amended against the zero-discount catalog. -/
def zeroUpdatedOrder : OrderDoc := { pendingOrder with foodItems := [zeroLine] }

/-- The pending payment after `Payment.updateMany`: the recomputed
`taxAmount` (500 × 5% = 25) is applied, but the `subtotal` and
`totalAmount` writes are stripped by the schema's `immutable: true`, so
the stored 200 / 210 survive unchanged. -/
def zeroUpdatedPayment : PaymentDoc :=
  { pendingPayment with taxAmount := 25 }

/-- The database after the amendment. -/
def zeroUpdateDBAfter : DB :=
  { zeroDiscountPendingDB with
    orders := [zeroUpdatedOrder],
    payments := [zeroUpdatedPayment] }

/-- Amending the pending order against the zero-discount catalog also
persists the line at the full price 250; of the recomputed totals only
`taxAmount` reaches the stored payment (the immutable `subtotal` and
`totalAmount` writes are stripped from the query update). -/
theorem zeroUpdate_eval :
    updateOrder zeroDiscountPendingDB zeroDiscountUpdateReq staff20 =
      (zeroUpdateDBAfter, .ok zeroUpdatedOrder) := by
  norm_num +decide [updateOrder, updateOrderTx, staffAuthCheck,
    findRestaurantBySlug, findOrderById, findAvailableFoodItem, resolveCart,
    resolveFoodItemLine, strTruthy, jsOr, lineSubtotal, replaceOrderById,
    updateLockedStatuses, demoDB, demoRestaurant, pizzaItem, largeVariant,
    demoTable, demoSub, busyTable, pizzaCart, staff20, zeroDiscountDB,
    zeroDiscountItem, zeroDiscountPendingDB, zeroDiscountUpdateReq,
    pendingOrder, pendingPayment, zeroUpdateDBAfter, zeroUpdatedOrder,
    zeroUpdatedPayment, zeroLine]

/-- C10 witness: the zero-discount variant flows through both endpoints at
its full price — `createOrder` and `updateOrder` persist the line at 250
although `discountedPrice = some 0` is present — and the persisted price
equals the variant's full price per the general theorem. -/
theorem zero_discount_uses_variant_full_price_witness :
    createOrder zeroDiscountDB pizzaReq okGateway 0 =
      (zeroCreateDBAfter, .ok (zeroOrderDocC, zeroPaymentDoc)) ∧
    updateOrder zeroDiscountPendingDB zeroDiscountUpdateReq staff20 =
      (zeroUpdateDBAfter, .ok zeroUpdatedOrder) ∧
    zeroVariant.discountedPrice = some 0 ∧
    zeroLine.price = zeroVariant.price ∧
    zeroUpdatedOrder.foodItems.map (fun l => l.price) = [250] := by
  refine ⟨zeroCreate_eval, zeroUpdate_eval, by decide, ?_, by decide⟩
  exact (zero_discount_uses_variant_full_price zeroDiscountDB).1 pizzaReq okGateway 0
    zeroCreateDBAfter zeroOrderDocC zeroPaymentDoc zeroCreate_eval zeroLine (by decide)
    "Large" zeroDiscountItem zeroVariant (by decide) (by decide) (by decide) (by decide)
